import Mathlib

set_option maxRecDepth 8000

/-!
Shallow embedding of the validated value objects of src/src/main.rs
(pirate-api). Rust strings are modelled as lists of Unicode scalar
values (Lean `Char`, matching Rust `char`); Rust's `String::len`,
which counts UTF-8 bytes, is modelled by `rustLen`.
-/

deriving instance DecidableEq for Except

/-- UTF-8 encoded length in bytes of one Unicode scalar value, as counted
by Rust's `String::len`. -/
def utf8CharLen (c : Char) : Nat :=
  if c.val < 0x80 then 1
  else if c.val < 0x800 then 2
  else if c.val < 0x10000 then 3
  else 4

/-- Rust `String::len`: the UTF-8 byte length of the string. -/
def rustLen (s : List Char) : Nat := (s.map utf8CharLen).sum

/-- The error enum `UserNameError` of main.rs. `InvalidCharacter` carries a
Rust `String` (produced by `char::to_string`), modelled as the one-character
list. -/
inductive UserNameError where
  | TooShort
  | TooLong
  | InvalidCharacter (s : List Char)
deriving DecidableEq, Repr

/-- The tuple struct `UserName(String)` of main.rs; `val` is field `.0`. -/
structure UserName where
  val : List Char
deriving DecidableEq, Repr

/-- The constant `INVALID_CHARS` of `UserName::try_new`. The bytes of the
string literal in the source file are
`21 E0B8A2 E0B887 24 25 26 2F 28 29 3D 3F`, i.e. the second and third
characters are U+0E22 and U+0E07 (not U+00A7). -/
def INVALID_CHARS : List Char :=
  ['!', Char.ofNat 0xE22, Char.ofNat 0xE07, '$', '%', '&', '/', '(', ')', '=', '?']

/-- The character-scan loop of `UserName::try_new`: the first character of
the string that occurs in `INVALID_CHARS`, if any. -/
def findForbidden (s : List Char) : Option Char :=
  match s with
  | [] => none
  | c :: rest => if c ∈ INVALID_CHARS then some c else findForbidden rest

/-- `UserName::try_new` of main.rs: length checks on `String::len` (bytes),
then the character scan. -/
def UserName.try_new (username : List Char) : Except UserNameError UserName :=
  if rustLen username < 12 then .error .TooShort
  else if 32 ≤ rustLen username then .error .TooLong
  else
    match findForbidden username with
    | some c => .error (.InvalidCharacter [c])
    | none => .ok ⟨username⟩

/-- `UserName::get` of main.rs. -/
def UserName.get (u : UserName) : List Char := u.val

/-- The unit error struct `EmailError` of main.rs: a single opaque variant. -/
structure EmailError where
deriving DecidableEq, Repr

/-- The tuple struct `Email(String)` of main.rs; `val` is field `.0`. -/
structure Email where
  val : List Char
deriving DecidableEq, Repr

/-- Splits a string at the dots, keeping empty groups. -/
def splitOnDot : List Char → List (List Char)
  | [] => [[]]
  | c :: rest =>
    if c = '.' then [] :: splitOnDot rest
    else
      match splitOnDot rest with
      | [] => [[c]]
      | g :: gs => (c :: g) :: gs

/-- Modelled from the spec: the atext characters of the RFC-5322-style
dot-atom local part (letters, digits, and the printable specials allowed
outside quoting). The chars written via `Char.ofNat` are apostrophe (0x27),
backtick (0x60), and the two curly braces (0x7b, 0x7d). -/
def atextSpecials : List Char :=
  ['!', '#', '$', '%', '&', Char.ofNat 0x27, '*', '+', '-', '/', '=', '?', '^',
   '_', Char.ofNat 0x60, Char.ofNat 0x7b, '|', Char.ofNat 0x7d, '~']

/-- Modelled from the spec: a character usable in a dot-atom local part. -/
def isAtext (c : Char) : Bool := c.isAlphanum || atextSpecials.contains c

/-- Modelled from the spec: a dot-atom local part — nonempty atext runs
separated by single dots. -/
def dotAtomLocal (l : List Char) : Bool :=
  (splitOnDot l).all (fun a => !a.isEmpty && a.all isAtext)

/-- Modelled from the spec: a qtext character, legal unescaped inside a
quoted local part — space or printable ASCII other than the double quote
(0x22) and the backslash (0x5c). -/
def isQtext (c : Char) : Bool :=
  c == ' ' ||
    (decide (33 ≤ c.val.toNat) && decide (c.val.toNat ≤ 126) &&
      !(c == Char.ofNat 0x22) && !(c == Char.ofNat 0x5c))

/-- Modelled from the spec: a character that a backslash may escape inside
a quoted local part (a quoted-pair) — space, tab, or printable ASCII. -/
def isQuotedPairChar (c : Char) : Bool :=
  c == ' ' || c == Char.ofNat 0x09 || (decide (33 ≤ c.val.toNat) && decide (c.val.toNat ≤ 126))

/-- Modelled from the spec: the interior of a quoted local part — a run of
qtext characters and backslash-escaped pairs; an unescaped illegal
character (bare quote or bare backslash) makes it invalid. -/
def validQuotedContent : List Char → Bool
  | [] => true
  | c :: rest =>
    if c = Char.ofNat 0x5c then
      match rest with
      | [] => false
      | d :: rest2 => isQuotedPairChar d && validQuotedContent rest2
    else
      isQtext c && validQuotedContent rest

/-- Modelled from the spec: a quoted local part — a double quote, then
valid quoted content, then a closing double quote. -/
def quotedLocal (l : List Char) : Bool :=
  match l with
  | [] => false
  | c :: rest =>
    c == Char.ofNat 0x22 && !rest.isEmpty &&
      rest.getLastD 'a' == Char.ofNat 0x22 && validQuotedContent rest.dropLast

/-- Modelled from the spec: a valid local part — at most 64 characters and
either a dot-atom or a quoted string (the spec's grammar covers quoted
local parts, rejecting only unescaped illegal characters inside them). -/
def validLocal (l : List Char) : Bool :=
  decide (l.length ≤ 64) && (dotAtomLocal l || quotedLocal l)

/-- Modelled from the spec: a valid domain label — nonempty, at most 63
characters, alphanumeric or hyphen, not starting or ending with a hyphen. -/
def validLabel (l : List Char) : Bool :=
  !l.isEmpty && decide (l.length ≤ 63) &&
    l.all (fun c => c.isAlphanum || c == '-') &&
    !(l.headD 'a' == '-') && !(l.getLastD 'a' == '-')

/-- Modelled from the spec: a valid domain — dot-separated valid labels; a
single label with no dot is allowed. -/
def validDomain (d : List Char) : Bool :=
  (splitOnDot d).all validLabel

/-- Splits a string at its first commercial-at character, if any. -/
def splitAtAt : List Char → Option (List Char × List Char)
  | [] => none
  | c :: rest =>
    if c = '@' then some ([], rest)
    else (splitAtAt rest).map (fun p => (c :: p.1, p.2))

/-- Modelled from the spec: `EmailAddress::is_valid` of the external
`email_address` crate, which is not part of this repository. Per the spec:
an RFC-5322-style address grammar — local part (dot-atom or quoted string),
one commercial-at, domain; strings with multiple at-signs rejected
(splitting at the first at-sign leaves any further at-sign to fail the
domain check); unescaped illegal characters in quoted segments rejected;
bare local parts without a domain rejected; a single-label domain with no
dot accepted; an overall length ceiling (254) consistent with the
informational email-address length limit; local part at most 64
characters. -/
def emailIsValid (s : List Char) : Bool :=
  match splitAtAt s with
  | none => false
  | some (l, d) => decide (s.length ≤ 254) && validLocal l && validDomain d

/-- `Email::try_new` of main.rs: accept iff the address validator passes,
wrapping the raw string unchanged. -/
def Email.try_new (email : List Char) : Except EmailError Email :=
  if emailIsValid email then .ok ⟨email⟩ else .error ⟨⟩

/-- `Email::get` of main.rs. -/
def Email.get (e : Email) : List Char := e.val

/-- The over-long address of the repository's length test: a 66-character
local part (64 digits then plus then x) before the commercial-at. -/
def longLocalEmail : List Char :=
  "1234567890123456789012345678901234567890123456789012345678901234+x@example.co".toList

example : UserName.try_new "test!%$/".toList = .error .TooShort := by decide

example : UserName.try_new "?testhallowkfahfla".toList =
    .error (.InvalidCharacter ['?']) := by decide

example : UserName.try_new "HelloWorldIAmTim".toList =
    .ok ⟨"HelloWorldIAmTim".toList⟩ := by decide

example : emailIsValid "example@s.example".toList = true := by decide

example : emailIsValid "admin@mailserver1".toList = true := by decide

example : emailIsValid "example-indeed@strange-example.com".toList = true := by decide

example : emailIsValid "A@b@c@example.com".toList = false := by decide

example : emailIsValid "Abc.example.com".toList = false := by decide

example : emailIsValid longLocalEmail = false := by decide

example : emailIsValid "\"john\"@example.com".toList = true := by decide

example : emailIsValid "\"john doe\"@example.com".toList = true := by decide

example : emailIsValid "\"say \\\"hi\\\"\"@example.com".toList = true := by decide

example : emailIsValid "this\\ still\"not\\allowed@example.com".toList = false := by decide

example : emailIsValid "a\"b(c)d,e:f;g<h>i[j\\k]l@example.com".toList = false := by decide

example : emailIsValid "\"unbalanced@example.com".toList = false := by decide

/-! Helper lemmas characterising the two constructors. -/

/-- Any string whose byte length is below 12 is rejected as too short. -/
theorem try_new_tooShort (s : List Char) (h : rustLen s < 12) :
    UserName.try_new s = .error .TooShort := by
  unfold UserName.try_new
  rw [if_pos h]

/-- Any string whose byte length is at least 32 is rejected as too long,
whatever characters it contains. -/
theorem try_new_tooLong (s : List Char) (h : 32 ≤ rustLen s) :
    UserName.try_new s = .error .TooLong := by
  unfold UserName.try_new
  rw [if_neg (by omega), if_pos h]

/-- Within the length window, the scan reports the first forbidden
character, wrapped as a one-character string. -/
theorem try_new_invalidChar (s : List Char) (c : Char)
    (h1 : 12 ≤ rustLen s) (h2 : rustLen s < 32) (h3 : findForbidden s = some c) :
    UserName.try_new s = .error (.InvalidCharacter [c]) := by
  unfold UserName.try_new
  rw [if_neg (by omega), if_neg (by omega), h3]

/-- Within the length window and with no forbidden character, construction
succeeds and wraps the input unchanged. -/
theorem try_new_ok (s : List Char)
    (h1 : 12 ≤ rustLen s) (h2 : rustLen s < 32) (h3 : findForbidden s = none) :
    UserName.try_new s = .ok ⟨s⟩ := by
  unfold UserName.try_new
  rw [if_neg (by omega), if_neg (by omega), h3]

/-- Inversion: a successful construction came from a string inside the
length window with no forbidden character, wrapped unchanged. -/
theorem try_new_ok_inv (s : List Char) (u : UserName)
    (h : UserName.try_new s = .ok u) :
    u = ⟨s⟩ ∧ 12 ≤ rustLen s ∧ rustLen s < 32 ∧ findForbidden s = none := by
  unfold UserName.try_new at h
  by_cases h1 : rustLen s < 12
  · rw [if_pos h1] at h
    exact absurd h (by simp)
  · rw [if_neg h1] at h
    by_cases h2 : 32 ≤ rustLen s
    · rw [if_pos h2] at h
      exact absurd h (by simp)
    · rw [if_neg h2] at h
      cases h3 : findForbidden s with
      | none =>
        rw [h3] at h
        injection h with h4
        exact ⟨h4.symm, by omega, by omega, rfl⟩
      | some c =>
        rw [h3] at h
        exact absurd h (by simp)

/-- Inversion for the email constructor: success wraps the input unchanged
and the input passed the validator. -/
theorem email_ok_inv (s : List Char) (e : Email) (h : Email.try_new s = .ok e) :
    e = ⟨s⟩ ∧ emailIsValid s = true := by
  unfold Email.try_new at h
  by_cases hv : emailIsValid s = true
  · rw [if_pos hv] at h
    injection h with h4
    exact ⟨h4.symm, hv⟩
  · rw [if_neg hv] at h
    exact absurd h (by simp)

/-- Every scalar value occupies at least one byte in UTF-8. -/
theorem one_le_utf8CharLen (c : Char) : 1 ≤ utf8CharLen c := by
  unfold utf8CharLen
  split
  · omega
  · split
    · omega
    · split <;> omega

/-- The character count never exceeds the UTF-8 byte count. -/
theorem length_le_rustLen (s : List Char) : s.length ≤ rustLen s := by
  induction s with
  | nil => simp [rustLen]
  | cons c t ih =>
    have hc := one_le_utf8CharLen c
    simp only [rustLen, List.map_cons, List.sum_cons, List.length_cons]
    simp only [rustLen] at ih
    omega

/-- The scan finds exactly the first forbidden character: a clean prefix
followed by a forbidden character yields that character. -/
theorem findForbidden_first (pre post : List Char) (c : Char)
    (hpre : ∀ x ∈ pre, x ∉ INVALID_CHARS) (hc : c ∈ INVALID_CHARS) :
    findForbidden (pre ++ c :: post) = some c := by
  induction pre with
  | nil => simp [findForbidden, hc]
  | cons a t ih =>
    have ha : a ∉ INVALID_CHARS := hpre a (by simp)
    simp only [List.cons_append, findForbidden, if_neg ha]
    exact ih (fun x hx => hpre x (by simp [hx]))

/-! Claim theorems. -/

/-- C1: `UserName::try_new` evaluates its checks in the fixed order
too-short, then too-long, then character scan, short-circuiting on the
first failure: any string below the lower length bound reports TooShort
whatever it contains, any string at or above the upper bound reports
TooLong whatever it contains, and in particular the 8-byte string
containing forbidden characters reports TooShort, not InvalidCharacter. -/
theorem C1_check_order :
    (∀ s : List Char, rustLen s < 12 → UserName.try_new s = .error .TooShort) ∧
    (∀ s : List Char, 32 ≤ rustLen s → UserName.try_new s = .error .TooLong) ∧
    UserName.try_new "test!%$/".toList = .error .TooShort :=
  ⟨try_new_tooShort, try_new_tooLong, try_new_tooShort _ (by decide)⟩

/-- Witness for C1 at the concrete input of the claim. -/
theorem C1_check_order_witness :
    rustLen "test!%$/".toList < 12 ∧
    UserName.try_new "test!%$/".toList = .error .TooShort :=
  ⟨by decide, C1_check_order.1 _ (by decide)⟩

/-- C2 counterexample: seven copies of U+00E4 form a 7-character string
whose UTF-8 encoding is 14 bytes, so construction succeeds instead of
failing with TooShort as the claim requires for every string of fewer than
12 characters. -/
theorem C2_counterexample :
    (List.replicate 7 (Char.ofNat 0xE4)).length < 12 ∧
    UserName.try_new (List.replicate 7 (Char.ofNat 0xE4)) =
      .ok ⟨List.replicate 7 (Char.ofNat 0xE4)⟩ :=
  ⟨by decide, by decide⟩

/-- C2 amended: `UserName::try_new` measures length in UTF-8 bytes, not
characters: every string whose byte length is strictly less than 12 fails
with TooShort. -/
theorem C2_amended_byteLength (s : List Char) (h : rustLen s < 12) :
    UserName.try_new s = .error .TooShort :=
  try_new_tooShort s h

/-- Witness for the amended C2 at a concrete short input. -/
theorem C2_amended_byteLength_witness :
    rustLen "test".toList < 12 ∧
    UserName.try_new "test".toList = .error .TooShort :=
  ⟨by decide, C2_amended_byteLength _ (by decide)⟩

/-- C3: behaviour of the code at the claimed forbidden set. The string of
twelve letters followed by U+00A7 is accepted although the claim forbids
U+00A7, and the string of twelve letters followed by U+0E22 is rejected
with InvalidCharacter although U+0E22 is outside the claimed ten-character
list: the source literal holds U+0E22 and U+0E07 where the spec says
U+00A7. -/
theorem C3_code_behavior :
    UserName.try_new (List.replicate 12 'a' ++ [Char.ofNat 0xA7]) =
      .ok ⟨List.replicate 12 'a' ++ [Char.ofNat 0xA7]⟩ ∧
    UserName.try_new (List.replicate 12 'a' ++ [Char.ofNat 0xE22]) =
      .error (.InvalidCharacter [Char.ofNat 0xE22]) :=
  ⟨by decide, by decide⟩

/-- C4 counterexample: twelve copies of U+4E2D form a 12-character string
with no forbidden character, yet construction fails with TooLong (36 UTF-8
bytes), refuting the claim that every 12-character forbidden-free string
succeeds. -/
theorem C4_counterexample :
    (List.replicate 12 (Char.ofNat 0x4E2D)).length = 12 ∧
    findForbidden (List.replicate 12 (Char.ofNat 0x4E2D)) = none ∧
    UserName.try_new (List.replicate 12 (Char.ofNat 0x4E2D)) = .error .TooLong :=
  ⟨by decide, by decide, by decide⟩

/-- C4 amended: every string of exactly 12 UTF-8 bytes with no forbidden
character succeeds; every string of exactly 32 characters fails with
TooLong; and every string of at least 32 characters fails with TooLong. -/
theorem C4_amended_boundary :
    (∀ s : List Char, rustLen s = 12 → findForbidden s = none →
        UserName.try_new s = .ok ⟨s⟩) ∧
    (∀ s : List Char, s.length = 32 → UserName.try_new s = .error .TooLong) ∧
    (∀ s : List Char, 32 ≤ s.length → UserName.try_new s = .error .TooLong) := by
  refine ⟨?_, ?_, ?_⟩
  · intro s h1 h2
    exact try_new_ok s (by omega) (by omega) h2
  · intro s h
    have := length_le_rustLen s
    exact try_new_tooLong s (by omega)
  · intro s h
    have := length_le_rustLen s
    exact try_new_tooLong s (by omega)

/-- Witness for the amended C4 at concrete boundary inputs. -/
theorem C4_amended_boundary_witness :
    rustLen "abcdefghijkl".toList = 12 ∧
    UserName.try_new "abcdefghijkl".toList = .ok ⟨"abcdefghijkl".toList⟩ :=
  ⟨by decide, C4_amended_boundary.1 _ (by decide) (by decide)⟩

/-- C5: for every string inside the length window whose characters are a
clean prefix, then a forbidden character, then anything, construction fails
with InvalidCharacter carrying exactly that first forbidden character
(as the one-character string produced by char::to_string). -/
theorem C5_invalid_character (pre post : List Char) (c : Char)
    (hpre : ∀ x ∈ pre, x ∉ INVALID_CHARS) (hc : c ∈ INVALID_CHARS)
    (h1 : 12 ≤ rustLen (pre ++ c :: post)) (h2 : rustLen (pre ++ c :: post) < 32) :
    UserName.try_new (pre ++ c :: post) = .error (.InvalidCharacter [c]) :=
  try_new_invalidChar _ c h1 h2 (findForbidden_first pre post c hpre hc)

/-- Witness for C5 at the concrete input of the claim. -/
theorem C5_invalid_character_witness :
    UserName.try_new ('?' :: "testhallowkfahfla".toList) =
      .error (.InvalidCharacter ['?']) :=
  C5_invalid_character [] "testhallowkfahfla".toList '?'
    (by simp) (by decide) (by decide) (by decide)

/-- C6: the email constructor succeeds exactly on the accepted grammar; in
particular it accepts the three addresses of the claim (one with a dotless
domain) and rejects the double-at address, the at-free address, and the
address with a 66-character local part. -/
theorem C6_email_grammar :
    (∀ s : List Char, (∃ e, Email.try_new s = .ok e) ↔ emailIsValid s = true) ∧
    (∃ e, Email.try_new "example@s.example".toList = .ok e) ∧
    (∃ e, Email.try_new "admin@mailserver1".toList = .ok e) ∧
    (∃ e, Email.try_new "example-indeed@strange-example.com".toList = .ok e) ∧
    Email.try_new "A@b@c@example.com".toList = .error ⟨⟩ ∧
    Email.try_new "Abc.example.com".toList = .error ⟨⟩ ∧
    Email.try_new longLocalEmail = .error ⟨⟩ := by
  refine ⟨?_, ⟨⟨"example@s.example".toList⟩, by decide⟩,
    ⟨⟨"admin@mailserver1".toList⟩, by decide⟩,
    ⟨⟨"example-indeed@strange-example.com".toList⟩, by decide⟩,
    by decide, by decide, by decide⟩
  intro s
  constructor
  · rintro ⟨e, he⟩
    exact (email_ok_inv s e he).2
  · intro hv
    refine ⟨⟨s⟩, ?_⟩
    unfold Email.try_new
    rw [if_pos hv]

/-- Witness for C6 at a concrete accepted address. -/
theorem C6_email_grammar_witness :
    emailIsValid "example@s.example".toList = true ∧
    (∃ e, Email.try_new "example@s.example".toList = .ok e) :=
  ⟨by decide, (C6_email_grammar.1 _).mpr (by decide)⟩

/-- C7: on success both constructors wrap the raw input unchanged, and the
accessor of an accepted value returns exactly the constructor input. -/
theorem C7_raw_unchanged :
    (∀ (s : List Char) (e : Email), Email.try_new s = .ok e → Email.get e = s) ∧
    (∀ (s : List Char) (u : UserName),
        UserName.try_new s = .ok u → UserName.get u = s) := by
  constructor
  · intro s e h
    rw [(email_ok_inv s e h).1]
    rfl
  · intro s u h
    rw [(try_new_ok_inv s u h).1]
    rfl

/-- Witness for C7 at a concrete accepted username. -/
theorem C7_raw_unchanged_witness :
    UserName.try_new "HelloWorldIAmTim".toList = .ok ⟨"HelloWorldIAmTim".toList⟩ ∧
    UserName.get ⟨"HelloWorldIAmTim".toList⟩ = "HelloWorldIAmTim".toList :=
  ⟨by decide, C7_raw_unchanged.2 _ _ (by decide)⟩

/-- C8: idempotence — re-running either constructor on the accessor output
of a successfully constructed value succeeds and returns the same value. -/
theorem C8_idempotent :
    (∀ (s : List Char) (e : Email), Email.try_new s = .ok e →
        Email.try_new (Email.get e) = .ok e) ∧
    (∀ (s : List Char) (u : UserName), UserName.try_new s = .ok u →
        UserName.try_new (UserName.get u) = .ok u) := by
  constructor
  · intro s e h
    obtain ⟨he, hv⟩ := email_ok_inv s e h
    subst he
    unfold Email.try_new Email.get
    rw [if_pos hv]
  · intro s u h
    obtain ⟨hu, h1, h2, h3⟩ := try_new_ok_inv s u h
    subst hu
    exact try_new_ok s h1 h2 h3

/-- Witness for C8 at a concrete accepted email. -/
theorem C8_idempotent_witness :
    Email.try_new "admin@mailserver1".toList = .ok ⟨"admin@mailserver1".toList⟩ ∧
    Email.try_new (Email.get ⟨"admin@mailserver1".toList⟩) =
      .ok ⟨"admin@mailserver1".toList⟩ :=
  ⟨by decide,
   C8_idempotent.1 "admin@mailserver1".toList ⟨"admin@mailserver1".toList⟩ (by decide)⟩

/-- C9: smart-constructor invariant — every value produced by a constructor
satisfies its validation rules as enforced by the code: an accepted email
passes the address validator, and an accepted username is inside the length
window and free of forbidden characters. -/
theorem C9_invariant :
    (∀ (s : List Char) (e : Email), Email.try_new s = .ok e →
        emailIsValid (Email.get e) = true) ∧
    (∀ (s : List Char) (u : UserName), UserName.try_new s = .ok u →
        12 ≤ rustLen (UserName.get u) ∧ rustLen (UserName.get u) < 32 ∧
          findForbidden (UserName.get u) = none) := by
  constructor
  · intro s e h
    obtain ⟨he, hv⟩ := email_ok_inv s e h
    subst he
    exact hv
  · intro s u h
    obtain ⟨hu, h1, h2, h3⟩ := try_new_ok_inv s u h
    subst hu
    exact ⟨h1, h2, h3⟩

/-- Witness for C9 at a concrete accepted username. -/
theorem C9_invariant_witness :
    UserName.try_new "HelloWorld.....IAmTim".toList =
      .ok ⟨"HelloWorld.....IAmTim".toList⟩ ∧
    12 ≤ rustLen (UserName.get ⟨"HelloWorld.....IAmTim".toList⟩) :=
  ⟨by decide,
   (C9_invariant.2 "HelloWorld.....IAmTim".toList
      ⟨"HelloWorld.....IAmTim".toList⟩ (by decide)).1⟩

/-- C10: both length bounds compare UTF-8 byte length, not character count:
seven copies of U+00F6 (7 characters, 14 bytes) are accepted, and sixteen
copies of U+00F6 (16 characters, 32 bytes) are rejected with TooLong. -/
theorem C10_byte_length :
    (List.replicate 7 (Char.ofNat 0xF6)).length < 12 ∧
    12 ≤ rustLen (List.replicate 7 (Char.ofNat 0xF6)) ∧
    UserName.try_new (List.replicate 7 (Char.ofNat 0xF6)) =
      .ok ⟨List.replicate 7 (Char.ofNat 0xF6)⟩ ∧
    (List.replicate 16 (Char.ofNat 0xF6)).length < 32 ∧
    32 ≤ rustLen (List.replicate 16 (Char.ofNat 0xF6)) ∧
    UserName.try_new (List.replicate 16 (Char.ofNat 0xF6)) = .error .TooLong :=
  ⟨by decide, by decide, by decide, by decide, by decide, by decide⟩
